import Mathlib

/-!
# Verification of the image-edit core: templates, format detection, orchestration

Shallow embedding of the `image_edit` Python package:

* `src/image_edit/utils/image.py` — `ImageFormat`, `detect_format`,
  `format_from_extension`
* `src/image_edit/templates/registry.py` — `Template`, `TemplateRegistry`
  (`register`, `get`, `load_user_templates`), `get_registry`
* `src/image_edit/templates/builtin.py` — `BUILTIN_TEMPLATES`
* `src/image_edit/core.py` — `resolve_prompt`, `combine_images`
* `src/image_edit/providers/gemini.py` — `GeminiProvider` (`_get_client`,
  `edit`/`generate`/`combine` response handling and exception wrapping)

Bytes are modelled as `List Nat` (byte values), Python `dict`s as functions
`String → Option α` (exact, case-sensitive key match), Python exceptions as
an `Except` error channel with an explicit taxonomy of exception classes.
-/

/-- `ImageFormat` enum from `utils/image.py`: closed set of supported formats. -/
inductive ImageFormat where
  | png
  | jpeg
  | webp
  | gif
deriving DecidableEq, Repr

/-- The `.value` of each enum member (`ImageFormat(str, Enum)`). -/
def ImageFormat.value : ImageFormat → String
  | .png => "png"
  | .jpeg => "jpeg"
  | .webp => "webp"
  | .gif => "gif"

/-- `ImageFormat.mime_type`: `f"image/{self.value}"`. -/
def ImageFormat.mime_type (f : ImageFormat) : String :=
  "image/" ++ f.value

/-- PNG signature `\x89PNG\r\n\x1a\n` from `MAGIC_BYTES`. -/
def pngSig : List Nat := [0x89, 0x50, 0x4E, 0x47, 0x0D, 0x0A, 0x1A, 0x0A]

/-- JPEG signature `\xff\xd8\xff`. -/
def jpegSig : List Nat := [0xFF, 0xD8, 0xFF]

/-- ASCII `RIFF`. -/
def riffSig : List Nat := [0x52, 0x49, 0x46, 0x46]

/-- ASCII `WEBP`. -/
def webpTag : List Nat := [0x57, 0x45, 0x42, 0x50]

/-- ASCII `GIF87a`. -/
def gif87Sig : List Nat := [0x47, 0x49, 0x46, 0x38, 0x37, 0x61]

/-- ASCII `GIF89a`. -/
def gif89Sig : List Nat := [0x47, 0x49, 0x46, 0x38, 0x39, 0x61]

/-- `detect_format` from `utils/image.py`: magic-byte sniffing over the raw
data. `data[:n]` is `List.take n`; `data[8:12]` is `(data.drop 8).take 4`. -/
def detect_format (data : List Nat) : Option ImageFormat :=
  if data.length < 4 then
    none
  else if data.take 8 = pngSig then
    some .png
  else if data.take 3 = jpegSig then
    some .jpeg
  else if data.take 4 = riffSig ∧ 12 ≤ data.length ∧ (data.drop 8).take 4 = webpTag then
    some .webp
  else if data.take 6 = gif87Sig ∨ data.take 6 = gif89Sig then
    some .gif
  else
    none

/-- ASCII-only model of Python `str.lower` (all inputs of interest are
ASCII), acting characterwise on the string. -/
def pyLower (s : String) : String :=
  String.mk (s.data.map Char.toLower)

/-- Model of Python `str.lstrip(".")`: remove every leading dot. -/
def lstripDot (s : String) : String :=
  String.mk (s.data.dropWhile (fun c => c = '.'))

/-- `format_from_extension` from `utils/image.py`: lowercase, strip leading
dots, then look the result up in a fixed mapping. -/
def format_from_extension (ext : String) : Option ImageFormat :=
  let e := lstripDot (pyLower ext)
  if e = "png" then some .png
  else if e = "jpg" then some .jpeg
  else if e = "jpeg" then some .jpeg
  else if e = "webp" then some .webp
  else if e = "gif" then some .gif
  else none

/-- The extension table exactly as the spec words it: `{png→PNG, jpg/jpeg→JPEG,
webp→WEBP, gif→GIF}`, unknown → none. Stated from the spec, to be compared
with `format_from_extension` from the source. -/
def specExtensionMap (e : String) : Option ImageFormat :=
  if e = "png" then some .png
  else if e = "jpg" ∨ e = "jpeg" then some .jpeg
  else if e = "webp" then some .webp
  else if e = "gif" then some .gif
  else none

/-- `Template` dataclass from `templates/registry.py`. `description` defaults
to the empty string and `aliases` to the empty list. -/
structure Template where
  name : String
  prompt : String
  description : String := ""
  aliases : List String := []
deriving DecidableEq, Repr

/-- A Python `dict` keyed by strings, modelled as a lookup function. -/
def Dict (α : Type) : Type := String → Option α

/-- `d[k] = v` assignment on a dict. -/
def Dict.insert {α : Type} (m : Dict α) (k : String) (v : α) : Dict α :=
  fun s => if s = k then some v else m s

/-- The empty dict. -/
def Dict.empty {α : Type} : Dict α := fun _ => none

/-- `TemplateRegistry` state: `_templates : dict[str, Template]` and
`_alias_map : dict[str, str]`. -/
structure TemplateRegistry where
  templates : Dict Template
  alias_map : Dict String

/-- `TemplateRegistry.__init__`: both dicts start empty. -/
def TemplateRegistry.init : TemplateRegistry :=
  ⟨Dict.empty, Dict.empty⟩

/-- `TemplateRegistry.register`: store the template under its name, then map
each alias to the name (iterating aliases in order). -/
def TemplateRegistry.register (r : TemplateRegistry) (t : Template) : TemplateRegistry :=
  { templates := r.templates.insert t.name t
    alias_map := t.aliases.foldl (fun m a => m.insert a t.name) r.alias_map }

/-- `TemplateRegistry.get`: check the name table, then the alias table.
The alias branch performs `self._templates[self._alias_map[name]]`, a raw
dict subscript that raises `KeyError` when the alias is dangling; that
possible exception is the `Except.error` channel here. -/
def TemplateRegistry.get (r : TemplateRegistry) (name : String) :
    Except String (Option Template) :=
  match r.templates name with
  | some t => .ok (some t)
  | none =>
    match r.alias_map name with
    | some n =>
      match r.templates n with
      | some t => .ok (some t)
      | none => .error "KeyError"
    | none => .ok none

/-- `resolve_prompt` from `core.py`: look the input up in the registry; on a
hit return the template prompt, otherwise return the input unchanged. The
error channel propagates a (hypothetical) lookup exception. -/
def resolve_prompt (r : TemplateRegistry) (prompt_or_template : String) :
    Except String String :=
  match r.get prompt_or_template with
  | .ok (some t) => .ok t.prompt
  | .ok none => .ok prompt_or_template
  | .error e => .error e

/-- The lookup result as the spec words it: exact-name table checked before
the alias table, prompt of the found template, input unchanged otherwise.
Stated from the spec for comparison with `resolve_prompt`. -/
def specResolve (r : TemplateRegistry) (s : String) : String :=
  match r.templates s with
  | some t => t.prompt
  | none =>
    match r.alias_map s with
    | some n =>
      match r.templates n with
      | some t => t.prompt
      | none => s
    | none => s

/-- Registry states reachable from a fresh registry by `register` calls only
(the only mutation the source ever performs on a registry). -/
inductive TemplateRegistry.Reachable : TemplateRegistry → Prop
  | init : TemplateRegistry.Reachable TemplateRegistry.init
  | step {r : TemplateRegistry} (t : Template) :
      TemplateRegistry.Reachable r → TemplateRegistry.Reachable (r.register t)

/-- `BUILTIN_TEMPLATES` from `templates/builtin.py`, verbatim. -/
def BUILTIN_TEMPLATES : List Template :=
  [ { name := "remove-bg"
      prompt := "Remove the background from this image completely. Make the background fully transparent while preserving the main subject with clean, precise edges. Keep only the primary subject visible."
      description := "Remove background, make transparent"
      aliases := ["removebg", "nobg", "background-remove"] }
  , { name := "enhance"
      prompt := "Enhance this image to improve overall quality. Increase clarity and sharpness, optimize lighting and exposure, reduce noise, and improve color balance. Make the image look more professional and polished."
      description := "Improve quality, clarity, and lighting"
      aliases := ["improve", "fix", "auto-enhance"] }
  , { name := "upscale"
      prompt := "Upscale and enhance this image to a higher resolution. Increase the detail and sharpness while maintaining natural appearance. Fill in fine details intelligently and reduce any pixelation or blur."
      description := "Increase resolution intelligently"
      aliases := ["resize", "enlarge", "hd"] }
  , { name := "vintage"
      prompt := "Apply a vintage film photography effect to this image. Add subtle film grain, slightly faded colors, warm tones, and a nostalgic aesthetic reminiscent of photos from the 1970s-80s."
      description := "Apply vintage/retro film effect"
      aliases := ["retro", "film", "old-photo"] }
  , { name := "sepia"
      prompt := "Convert this image to sepia tone. Apply a warm brownish tint throughout, creating a classic, antique photograph appearance."
      description := "Apply sepia tone effect"
      aliases := ["brown", "antique"] }
  , { name := "sharpen"
      prompt := "Sharpen this image to increase clarity and detail. Enhance edges and fine details while avoiding artifacts. Make the image appear crisper and more defined."
      description := "Sharpen and increase clarity"
      aliases := ["crisp", "clarity"] }
  , { name := "bw"
      prompt := "Convert this image to black and white. Create a high-quality monochrome version with good tonal range, proper contrast, and artistic appeal."
      description := "Convert to black and white"
      aliases := ["blackwhite", "grayscale", "mono", "monochrome"] }
  , { name := "blur-bg"
      prompt := "Apply a professional depth-of-field blur to the background. Keep the main subject in sharp focus while creating a smooth, pleasing bokeh effect on the background. Make it look like a professional portrait photo."
      description := "Blur background, keep subject sharp"
      aliases := ["bokeh", "portrait-mode", "depth"] }
  , { name := "cartoon"
      prompt := "Transform this image into a cartoon or illustrated style. Simplify details, add bold outlines, and use vibrant, flat colors to create an animated/comic book appearance."
      description := "Convert to cartoon/illustration style"
      aliases := ["animate", "comic", "illustrated"] }
  , { name := "watercolor"
      prompt := "Transform this image into a watercolor painting style. Add soft, flowing brush strokes, subtle color bleeding, and the characteristic translucent quality of watercolor art."
      description := "Apply watercolor painting effect"
      aliases := ["painting", "artistic"] }
  ]

/-- One record of the user `templates.toml` `[[template]]` array, before
validation: the parsed TOML dict may lack the required `name`/`prompt` keys
(subscripting them then raises `KeyError`), while `description`/`aliases`
are read with `.get` and a default. -/
structure RawRecord where
  nameKey : Option String
  promptKey : Option String
  descriptionKey : Option String
  aliasesKey : Option (List String)
deriving DecidableEq, Repr

/-- Building `Template(...)` from a record: `tmpl_data["name"]` and
`tmpl_data["prompt"]` raise `KeyError` (`none` here) when absent;
`tmpl_data.get("description", "")` and `tmpl_data.get("aliases", [])`
default. -/
def RawRecord.toTemplate (rec : RawRecord) : Option Template :=
  match rec.nameKey, rec.promptKey with
  | some n, some p =>
      some { name := n, prompt := p,
             description := rec.descriptionKey.getD "",
             aliases := rec.aliasesKey.getD [] }
  | _, _ => none

/-- Outcome of reading the external user-template source, as seen by
`load_user_templates`: the file may be absent, `tomllib.load` (or iterating
`data.get("template", [])`) may raise, or it yields a list of records. -/
inductive UserSource where
  | missing
  | parseFailure
  | records (rs : List RawRecord)

/-- The `for tmpl_data in data.get("template", [])` loop: records are
constructed and registered one at a time; the first record whose required
key is missing raises inside the loop, the surrounding `except` swallows
it, and **registrations already performed are kept**. -/
def registerRecords (r : TemplateRegistry) : List RawRecord → TemplateRegistry
  | [] => r
  | rec :: rest =>
    match rec.toTemplate with
    | some t => registerRecords (r.register t) rest
    | none => r

/-- `TemplateRegistry.load_user_templates`: no-op on a missing file; the
`try` block swallows a TOML parse failure (nothing registered) and any
mid-loop record failure (earlier registrations kept). Always returns
normally — no error reaches the caller. -/
def TemplateRegistry.load_user_templates (r : TemplateRegistry) (src : UserSource) :
    TemplateRegistry :=
  match src with
  | .missing => r
  | .parseFailure => r
  | .records rs => registerRecords r rs

/-- `get_registry` from `templates/registry.py`: fresh registry, register all
built-ins in list order, then load user templates. -/
def get_registry (src : UserSource) : TemplateRegistry :=
  (BUILTIN_TEMPLATES.foldl TemplateRegistry.register TemplateRegistry.init).load_user_templates src

/-- The exception classes the embedded code can raise or observe:
`ValueError` (the validation-error class used by `core.py`), the domain
class `ProviderError` from `providers/base.py`, and any other
transport-level `Exception`. -/
inductive Exc where
  | valueError (msg : String)
  | providerError (msg : String)
  | otherExc (msg : String)
deriving DecidableEq, Repr

/-- The exception class of an `Exc` value, for distinguishability
statements. -/
inductive ExcClass where
  | valueErrorClass
  | providerErrorClass
  | otherExcClass
deriving DecidableEq, Repr

/-- Which class an exception value belongs to. -/
def Exc.cls : Exc → ExcClass
  | .valueError _ => .valueErrorClass
  | .providerError _ => .providerErrorClass
  | .otherExc _ => .otherExcClass

/-- `EditResult` dataclass from `providers/base.py`. -/
structure EditResult where
  image_data : List Nat
  mime_type : String
  provider : String
  model : Option String := none
deriving DecidableEq, Repr

/-- One image argument to `combine`: raw bytes plus optional MIME hint. -/
abbrev ImageArg := List Nat × Option String

/-- A provider `combine` implementation, as the orchestrator sees it:
a function from the image list and prompt to a result or exception. -/
abbrev CombineFn := List ImageArg → String → Except Exc EditResult

/-- `combine_images` from `core.py`: raise
`ValueError("At least 2 images are required for combine operation")`
when fewer than two images are supplied, otherwise delegate to the
provider's `combine` with the image list and prompt passed through
verbatim. -/
def combine_images (provider : CombineFn) (images : List ImageArg)
    (prompt : String) : Except Exc EditResult :=
  if images.length < 2 then
    .error (.valueError "At least 2 images are required for combine operation")
  else
    provider images prompt

/-- The per-image MIME resolution inside `GeminiProvider.combine` (and
`edit`): keep a given hint, otherwise `detect_format`, otherwise
`"image/png"`. -/
def geminiMime (data : List Nat) (hint : Option String) : String :=
  match hint with
  | some m => m
  | none =>
    match detect_format data with
    | some f => f.mime_type
    | none => "image/png"

/-- A part of the Gemini request payload. -/
inductive ReqPart where
  | bytesPart (data : List Nat) (mime : String)
  | textPart (t : String)
deriving DecidableEq, Repr

/-- The `parts` list `GeminiProvider.combine` builds before the API call:
one bytes part per image, with the MIME hole filled per `geminiMime`,
followed by the prompt as a text part. -/
def geminiCombineParts (images : List ImageArg) (prompt : String) : List ReqPart :=
  (images.map (fun img => ReqPart.bytesPart img.1 (geminiMime img.1 img.2))) ++
    [ReqPart.textPart prompt]

/-- The MIME resolution rule as the spec words it: each image lacking a MIME
hint has it filled in by running the Format Detector on its bytes,
defaulting to PNG's MIME type when detection is inconclusive. Stated from
the spec for comparison with the code's `geminiMime`. -/
def specMime (img : ImageArg) : String :=
  match img.2 with
  | some m => m
  | none => ((detect_format img.1).map ImageFormat.mime_type).getD "image/png"

/-- One part of a Gemini API response candidate: inline image data, text,
or neither. -/
inductive RespPart where
  | inlineData (data : List Nat) (mime : String)
  | text (t : String)
  | empty
deriving DecidableEq, Repr

/-- `p.text` for a response part (`None` unless it is a text part). -/
def RespPart.textOf : RespPart → Option String
  | .text t => some t
  | _ => none

/-- The response-parsing loop shared by `edit`/`generate`/`combine`:
return an `EditResult` from the first part carrying `inline_data`;
otherwise raise `ProviderError` with the concatenated text parts, or the
no-image message when there is no text either. `combineTexts` is
`" ".join(text_parts)` where `text_parts = [p.text for p in parts if p.text]`
(the `if p.text` truthiness test drops both absent and empty text). -/
def truthyText (p : RespPart) : Option String :=
  match p.textOf with
  | some t => if t = "" then none else some t
  | none => none

/-- `" ".join` of the truthy text parts. -/
def combineTexts (parts : List RespPart) : String :=
  String.intercalate " " (parts.filterMap truthyText)

/-- Whether any response part carries truthy (non-empty) text. -/
def hasText (parts : List RespPart) : Bool :=
  parts.any (fun p => (truthyText p).isSome)

/-- Extraction of the image from a Gemini response (the body of the `try`
block after the API call returns), for a provider named `gemini` with the
given model. -/
def extractImage (model : String) : List RespPart → Except Exc EditResult
  | [] =>
    .error (.providerError "Gemini response contained no image data")
  | .inlineData d m :: _ =>
    .ok { image_data := d, mime_type := m, provider := "gemini", model := some model }
  | p :: rest =>
    match extractImage model rest with
    | .ok r => .ok r
    | .error _ =>
      if hasText (p :: rest) then
        .error (.providerError ("Gemini returned text instead of image: " ++ combineTexts (p :: rest)))
      else
        .error (.providerError "Gemini response contained no image data")

/-- The `except Exception as e` handler shared by `edit`/`generate`/`combine`:
re-raise a `ProviderError` unchanged, wrap anything else once in
`ProviderError(f"Gemini API error: {e}")`. -/
def geminiWrapExc : Exc → Exc
  | .providerError m => .providerError m
  | .valueError m => .providerError ("Gemini API error: " ++ m)
  | .otherExc m => .providerError ("Gemini API error: " ++ m)

/-- `try ... except` around a body outcome: the handler above applied on the
error path. -/
def geminiTry {α : Type} (body : Except Exc α) : Except Exc α :=
  match body with
  | .ok a => .ok a
  | .error e => .error (geminiWrapExc e)

/-- `GeminiProvider._get_client`: raise `ProviderError` when the configured
API key is absent (`None`) or empty (falsy), otherwise succeed. -/
def geminiGetClient (apiKey : Option String) : Except Exc Unit :=
  match apiKey with
  | none =>
    .error (.providerError "Gemini API key not configured. Run 'image-edit config set api-key YOUR_KEY' or set GEMINI_API_KEY.")
  | some k =>
    if k = "" then
      .error (.providerError "Gemini API key not configured. Run 'image-edit config set api-key YOUR_KEY' or set GEMINI_API_KEY.")
    else
      .ok ()

/-- The transport call `client.models.generate_content(...)`: modelled as its
outcome, either a response (the parts of candidate 0) or an exception. -/
abbrev Transport := Except Exc (List RespPart)

/-- `GeminiProvider.combine` after `_get_client` succeeded: build the parts
(filling MIME holes), then run the API call and response parsing inside
`try`/`except`. The transport is a function of the request parts. -/
def geminiCombine (model : String) (transport : List ReqPart → Transport)
    (images : List ImageArg) (prompt : String) : Except Exc EditResult :=
  geminiTry ((transport (geminiCombineParts images prompt)).bind (extractImage model))

/-- `GeminiProvider.edit` after `_get_client` succeeded: fill the MIME hole
for the single image, then call and parse inside `try`/`except`. -/
def geminiEdit (model : String) (transport : List ReqPart → Transport)
    (image_data : List Nat) (prompt : String) (mime_type : Option String) :
    Except Exc EditResult :=
  geminiTry
    ((transport [ReqPart.bytesPart image_data (geminiMime image_data mime_type),
                 ReqPart.textPart prompt]).bind (extractImage model))

/-- `GeminiProvider.generate` after `_get_client` succeeded. -/
def geminiGenerate (model : String) (transport : List ReqPart → Transport)
    (prompt : String) : Except Exc EditResult :=
  geminiTry ((transport [ReqPart.textPart prompt]).bind (extractImage model))

/-- The total lookup that `get` performs when no alias dangles: name table,
then alias indirection into the name table. -/
def specLookup (r : TemplateRegistry) (s : String) : Option Template :=
  match r.templates s with
  | some t => some t
  | none =>
    match r.alias_map s with
    | some n => r.templates n
    | none => none

/-- Pointwise behaviour of a dict after an assignment. -/
theorem Dict.insert_apply {α : Type} (m : Dict α) (k : String) (v : α) (x : String) :
    m.insert k v x = if x = k then some v else m x := rfl

/-- Pointwise behaviour of the alias loop in `register`: an alias of the
template now maps to the template name, everything else is untouched. -/
theorem aliasFold_apply (as : List String) (n : String) (m : Dict String) (x : String) :
    (as.foldl (fun m a => m.insert a n) m) x = if x ∈ as then some n else m x := by
  induction as generalizing m with
  | nil => simp
  | cons a rest ih =>
    rw [List.foldl_cons, ih]
    by_cases hx : x = a <;> by_cases hr : x ∈ rest <;>
      simp [Dict.insert_apply, hx, hr]

/-- Name table after `register`. -/
theorem register_templates_apply (r : TemplateRegistry) (t : Template) (x : String) :
    (r.register t).templates x = if x = t.name then some t else r.templates x := rfl

/-- Alias table after `register`. -/
theorem register_alias_apply (r : TemplateRegistry) (t : Template) (x : String) :
    (r.register t).alias_map x = if x ∈ t.aliases then some t.name else r.alias_map x :=
  aliasFold_apply t.aliases t.name r.alias_map x

/-- The registry invariant: every alias entry points at a present name. -/
def AliasOk (r : TemplateRegistry) : Prop :=
  ∀ a n, r.alias_map a = some n → (r.templates n).isSome = true

/-- A fresh registry satisfies the invariant. -/
theorem aliasOk_init : AliasOk TemplateRegistry.init := by
  intro a n h
  simp [TemplateRegistry.init, Dict.empty] at h

/-- `register` preserves the invariant: newly written aliases point at the
name registered in the same call, and names are never removed. -/
theorem aliasOk_register {r : TemplateRegistry} (h : AliasOk r) (t : Template) :
    AliasOk (r.register t) := by
  intro a n ha
  rw [register_alias_apply] at ha
  rw [register_templates_apply]
  by_cases hm : a ∈ t.aliases
  · simp [hm] at ha
    simp [← ha]
  · simp [hm] at ha
    have := h a n ha
    by_cases hn : n = t.name <;> simp [hn, this]

/-- Every reachable registry state satisfies the invariant. -/
theorem reachable_aliasOk {r : TemplateRegistry} (h : r.Reachable) : AliasOk r := by
  induction h with
  | init => exact aliasOk_init
  | step t _ ih => exact aliasOk_register ih t

/-- Under the invariant, `get` never raises: it returns exactly the total
lookup. -/
theorem get_eq_specLookup {r : TemplateRegistry} (h : AliasOk r) (s : String) :
    r.get s = Except.ok (specLookup r s) := by
  cases ht : r.templates s with
  | some t => simp [TemplateRegistry.get, specLookup, ht]
  | none =>
    cases ha : r.alias_map s with
    | none => simp [TemplateRegistry.get, specLookup, ht, ha]
    | some n =>
      have hOk := h s n ha
      cases hn : r.templates n with
      | some t => simp [TemplateRegistry.get, specLookup, ht, ha, hn]
      | none => rw [hn] at hOk; simp at hOk

/-- A `foldl` of `register` calls keeps the registry reachable. -/
theorem reachable_foldl (ts : List Template) {r : TemplateRegistry}
    (h : r.Reachable) : (ts.foldl TemplateRegistry.register r).Reachable := by
  induction ts generalizing r with
  | nil => exact h
  | cons t rest ih => exact ih (h.step t)

/-- `registerRecords` keeps the registry reachable. -/
theorem reachable_registerRecords (rs : List RawRecord) {r : TemplateRegistry}
    (h : r.Reachable) : (registerRecords r rs).Reachable := by
  induction rs generalizing r with
  | nil => exact h
  | cons rec rest ih =>
    unfold registerRecords
    cases rec.toTemplate with
    | some t => exact ih (h.step t)
    | none => exact h

/-- The registry `get_registry` builds is reachable, for every outcome of
the user-template source. -/
theorem reachable_get_registry (src : UserSource) : (get_registry src).Reachable := by
  unfold get_registry TemplateRegistry.load_user_templates
  cases src with
  | missing => exact reachable_foldl _ .init
  | parseFailure => exact reachable_foldl _ .init
  | records rs => exact reachable_registerRecords rs (reachable_foldl _ .init)

/-- `specResolve` is the prompt-or-identity view of the total lookup. -/
theorem specResolve_eq_lookup (r : TemplateRegistry) (s : String) :
    specResolve r s = (match specLookup r s with
                       | some t => t.prompt
                       | none => s) := by
  cases ht : r.templates s with
  | some t => simp [specResolve, specLookup, ht]
  | none =>
    cases ha : r.alias_map s with
    | none => simp [specResolve, specLookup, ht, ha]
    | some n =>
      cases hn : r.templates n with
      | some t => simp [specResolve, specLookup, ht, ha, hn]
      | none => simp [specResolve, specLookup, ht, ha, hn]

/-- The registry seeded with the built-in templates only. -/
def builtinRegistry : TemplateRegistry :=
  BUILTIN_TEMPLATES.foldl TemplateRegistry.register TemplateRegistry.init

/-- The built-in registry is reachable by `register` calls. -/
theorem builtinRegistry_reachable : builtinRegistry.Reachable :=
  reachable_foldl BUILTIN_TEMPLATES TemplateRegistry.Reachable.init

/-- C1: for every string, `resolve_prompt` returns the prompt field of the
template the registry lookup finds (exact-name table before the alias
table) and the input string unchanged on no match; on every reachable
registry (in particular the one `get_registry` builds) it never raises. -/
theorem resolve_prompt_spec {r : TemplateRegistry} (h : r.Reachable) (s : String) :
    resolve_prompt r s = Except.ok (specResolve r s) := by
  have hget := get_eq_specLookup (reachable_aliasOk h) s
  rw [specResolve_eq_lookup]
  unfold resolve_prompt
  rw [hget]
  cases specLookup r s <;> rfl

/-- C1 witness: on the built-in registry, the alias `nobg` resolves to the
remove-bg prompt, and a free-text string comes back unchanged. -/
theorem resolve_prompt_spec_witness :
    resolve_prompt builtinRegistry "nobg" = Except.ok (specResolve builtinRegistry "nobg") ∧
    specResolve builtinRegistry "nobg" = "Remove the background from this image completely. Make the background fully transparent while preserving the main subject with clean, precise edges. Keep only the primary subject visible." ∧
    resolve_prompt builtinRegistry "make it blue" = Except.ok (specResolve builtinRegistry "make it blue") ∧
    specResolve builtinRegistry "make it blue" = "make it blue" :=
  ⟨resolve_prompt_spec builtinRegistry_reachable "nobg", rfl,
   resolve_prompt_spec builtinRegistry_reachable "make it blue", rfl⟩

/-- C10: on every registry reachable from the empty registry by `register`
calls, every alias-map entry points at a present name, so the alias
indirection inside `get` always succeeds: `get` returns `Except.ok` of the
total lookup for every key, and never raises `KeyError` on a dangling
alias. -/
theorem registry_get_total {r : TemplateRegistry} (h : r.Reachable) :
    (∀ a n, r.alias_map a = some n → (r.templates n).isSome = true) ∧
    (∀ s, r.get s = Except.ok (specLookup r s)) :=
  ⟨reachable_aliasOk h, fun s => get_eq_specLookup (reachable_aliasOk h) s⟩

/-- C10 witness: an alias lookup on the built-in registry succeeds with the
total lookup's answer. -/
theorem registry_get_total_witness :
    builtinRegistry.get "monochrome" = Except.ok (specLookup builtinRegistry "monochrome") ∧
    specLookup builtinRegistry "monochrome" =
      some { name := "bw"
             prompt := "Convert this image to black and white. Create a high-quality monochrome version with good tonal range, proper contrast, and artistic appeal."
             description := "Convert to black and white"
             aliases := ["blackwhite", "grayscale", "mono", "monochrome"] } :=
  ⟨(registry_get_total builtinRegistry_reachable).2 "monochrome", rfl⟩

/-- C5: registering a template whose alias list holds an alias already owned
by a previously registered template reassigns that alias to the new
template (last-write-wins on the alias map), the previously registered
template stays reachable by its own name through `get`, and a name-keyed
entry changes only when a template with that very name is registered. -/
theorem register_alias_last_write_wins (r : TemplateRegistry) (t₁ t₂ : Template)
    (a : String) (h₁ : a ∈ t₁.aliases) (h₂ : a ∈ t₂.aliases)
    (hname : t₁.name ≠ t₂.name) :
    ((r.register t₁).register t₂).alias_map a = some t₂.name ∧
    ((r.register t₁).register t₂).get t₁.name = Except.ok (some t₁) ∧
    (∀ x, x ≠ t₂.name →
      ((r.register t₁).register t₂).templates x = (r.register t₁).templates x) := by
  refine ⟨?_, ?_, ?_⟩
  · rw [register_alias_apply]
    simp [h₂]
  · have ht : ((r.register t₁).register t₂).templates t₁.name = some t₁ := by
      rw [register_templates_apply, if_neg hname, register_templates_apply, if_pos rfl]
    simp [TemplateRegistry.get, ht]
  · intro x hx
    rw [register_templates_apply, if_neg hx]

/-- C5 witness: two templates sharing the alias `shared`; after both are
registered the alias belongs to the second, the first stays reachable by
name. -/
theorem register_alias_last_write_wins_witness :
    ((TemplateRegistry.init.register
        { name := "one", prompt := "first prompt", aliases := ["shared"] }).register
        { name := "two", prompt := "second prompt", aliases := ["shared"] }).alias_map "shared" =
      some "two" ∧
    ((TemplateRegistry.init.register
        { name := "one", prompt := "first prompt", aliases := ["shared"] }).register
        { name := "two", prompt := "second prompt", aliases := ["shared"] }).get "one" =
      Except.ok (some { name := "one", prompt := "first prompt", aliases := ["shared"] }) :=
  ⟨(register_alias_last_write_wins TemplateRegistry.init
      { name := "one", prompt := "first prompt", aliases := ["shared"] }
      { name := "two", prompt := "second prompt", aliases := ["shared"] }
      "shared" (by simp) (by simp) (by decide)).1,
   (register_alias_last_write_wins TemplateRegistry.init
      { name := "one", prompt := "first prompt", aliases := ["shared"] }
      { name := "two", prompt := "second prompt", aliases := ["shared"] }
      "shared" (by simp) (by simp) (by decide)).2.1⟩

/-- The templates built from the longest prefix of records whose required
keys are all present: exactly the registrations `load_user_templates`
performs before the first `KeyError` aborts the loop. -/
def keptTemplates : List RawRecord → List Template
  | [] => []
  | rec :: rest =>
    match rec.toTemplate with
    | some t => t :: keptTemplates rest
    | none => []

/-- C4 counterexample: a source whose second record lacks the required
`prompt` key is a structural parse failure, yet the load is not skipped as
a whole — the first (valid) record is registered, so the registry differs
from its pre-load state. -/
theorem load_user_templates_not_atomic :
    (TemplateRegistry.init.load_user_templates
        (UserSource.records
          [{ nameKey := some "usertpl", promptKey := some "user prompt text",
             descriptionKey := none, aliasesKey := none },
           { nameKey := some "broken", promptKey := none,
             descriptionKey := none, aliasesKey := none }])).templates "usertpl" =
      some { name := "usertpl", prompt := "user prompt text" } ∧
    TemplateRegistry.init.templates "usertpl" = none :=
  ⟨rfl, rfl⟩

/-- C4 amended: a missing file, or a parse failure of the file itself,
leaves the registry unchanged; a structurally invalid record aborts the
loop at that record but the valid records before it stay registered; in
every case the function returns normally (its total type surfaces no
error to the caller). -/
theorem load_user_templates_keeps_valid_prefix (r : TemplateRegistry) :
    r.load_user_templates .missing = r ∧
    r.load_user_templates .parseFailure = r ∧
    ∀ rs, r.load_user_templates (.records rs) =
      (keptTemplates rs).foldl TemplateRegistry.register r := by
  refine ⟨rfl, rfl, ?_⟩
  intro rs
  show registerRecords r rs = _
  induction rs generalizing r with
  | nil => rfl
  | cons rec rest ih =>
    cases h : rec.toTemplate with
    | some t => simp [registerRecords, keptTemplates, h, ih]
    | none => simp [registerRecords, keptTemplates, h]

/-- A prefix equality pins down a lower bound on the length. -/
theorem take_eq_length_ge {d sig : List Nat} {n : Nat} (h : d.take n = sig)
    (hs : sig.length = n) : n ≤ d.length := by
  have hl := congrArg List.length h
  rw [List.length_take, hs] at hl
  omega

/-- C6: `detect_format` applies its checks in order — fewer than 4 bytes
gives none; then the 8-byte PNG signature; else the 3-byte JPEG prefix;
else RIFF with length at least 12 and WEBP at bytes 8–11; else GIF87a or
GIF89a over the first 6 bytes; else none — as a pure function of the
bytes. -/
theorem detect_format_spec (d : List Nat) :
    (d.length < 4 → detect_format d = none) ∧
    (d.take 8 = pngSig → detect_format d = some ImageFormat.png) ∧
    (¬ d.length < 4 → d.take 8 ≠ pngSig → d.take 3 = jpegSig →
      detect_format d = some ImageFormat.jpeg) ∧
    (d.take 8 ≠ pngSig → d.take 3 ≠ jpegSig → d.take 4 = riffSig →
      12 ≤ d.length → (d.drop 8).take 4 = webpTag →
      detect_format d = some ImageFormat.webp) ∧
    (d.take 8 ≠ pngSig → d.take 3 ≠ jpegSig →
      ¬(d.take 4 = riffSig ∧ 12 ≤ d.length ∧ (d.drop 8).take 4 = webpTag) →
      (d.take 6 = gif87Sig ∨ d.take 6 = gif89Sig) →
      detect_format d = some ImageFormat.gif) ∧
    (d.take 8 ≠ pngSig → d.take 3 ≠ jpegSig →
      ¬(d.take 4 = riffSig ∧ 12 ≤ d.length ∧ (d.drop 8).take 4 = webpTag) →
      ¬(d.take 6 = gif87Sig ∨ d.take 6 = gif89Sig) →
      detect_format d = none) := by
  refine ⟨?_, ?_, ?_, ?_, ?_, ?_⟩
  · intro h
    simp [detect_format, h]
  · intro h
    have h8 : 8 ≤ d.length := take_eq_length_ge h (by decide)
    unfold detect_format
    split_ifs <;> first | rfl | omega | tauto
  · intro hl hp hj
    unfold detect_format
    split_ifs <;> first | rfl | omega | tauto
  · intro hp hj hr hl hw
    unfold detect_format
    split_ifs <;> first | rfl | omega | tauto
  · intro hp hj hw hg
    have h6 : 6 ≤ d.length := by
      rcases hg with h | h
      · exact take_eq_length_ge h (by decide)
      · exact take_eq_length_ge h (by decide)
    unfold detect_format
    split_ifs <;> first | rfl | omega | tauto
  · intro hp hj hw hg
    unfold detect_format
    split_ifs <;> first | rfl | omega | tauto

/-- C6 witness: the PNG signature itself, a JPEG prefix, a WEBP header and a
too-short input, all classified through the theorem. -/
theorem detect_format_spec_witness :
    detect_format [0x89, 0x50, 0x4E, 0x47, 0x0D, 0x0A, 0x1A, 0x0A] = some ImageFormat.png ∧
    detect_format [0xFF, 0xD8, 0xFF, 0xE0] = some ImageFormat.jpeg ∧
    detect_format [0x52, 0x49, 0x46, 0x46, 0, 0, 0, 0, 0x57, 0x45, 0x42, 0x50] =
      some ImageFormat.webp ∧
    detect_format [0x47, 0x49, 0x46] = none :=
  ⟨(detect_format_spec _).2.1 (by decide),
   (detect_format_spec _).2.2.1 (by decide) (by decide) (by decide),
   (detect_format_spec _).2.2.2.1 (by decide) (by decide) (by decide) (by decide) (by decide),
   (detect_format_spec _).1 (by decide)⟩

/-- C9: `format_from_extension` is exactly: lowercase the string, strip the
leading dots, then apply the spec's extension table; in particular `PNG`,
`png` and `.png` give PNG and `bmp` gives none. A total function — no
side effects, no errors. -/
theorem format_from_extension_spec :
    (∀ s, format_from_extension s = specExtensionMap (lstripDot (pyLower s))) ∧
    format_from_extension "PNG" = some ImageFormat.png ∧
    format_from_extension "png" = some ImageFormat.png ∧
    format_from_extension ".png" = some ImageFormat.png ∧
    format_from_extension "bmp" = none := by
  refine ⟨?_, by decide, by decide, by decide, by decide⟩
  intro s
  simp only [format_from_extension, specExtensionMap]
  split_ifs <;> tauto

/-- A fixed result for stub providers. -/
def stubResult : EditResult :=
  { image_data := [0], mime_type := "image/png", provider := "gemini" }

/-- A stub provider that always succeeds. -/
def okProvider : CombineFn := fun _ _ => .ok stubResult

/-- A stub provider that always raises a transport exception. -/
def boomProvider : CombineFn := fun _ _ => .error (.otherExc "boom")

/-- A stub provider that reports whether it was handed an image tuple whose
MIME slot is still absent. -/
def probeProvider : CombineFn := fun imgs _ =>
  if imgs.any (fun i => i.2.isNone) then
    .error (.providerError "provider received an image with no MIME type")
  else
    .ok stubResult

/-- C2: `combine_images` with fewer than two images raises the
`ValueError` validation error — a class distinct from `ProviderError` —
and its outcome does not depend on the provider at all (so no provider
operation is invoked); with two or more images it delegates to the
provider's combine verbatim. -/
theorem combine_images_validates (p₁ p₂ : CombineFn) (images : List ImageArg)
    (prompt : String) :
    (images.length < 2 →
      combine_images p₁ images prompt =
        Except.error (Exc.valueError "At least 2 images are required for combine operation") ∧
      combine_images p₁ images prompt = combine_images p₂ images prompt) ∧
    (2 ≤ images.length → combine_images p₁ images prompt = p₁ images prompt) ∧
    (Exc.valueError "At least 2 images are required for combine operation").cls ≠
      ExcClass.providerErrorClass := by
  refine ⟨fun h => ⟨?_, ?_⟩, fun h => ?_, by simp [Exc.cls]⟩
  · simp [combine_images, h]
  · simp [combine_images, h]
  · have hn : ¬ images.length < 2 := by omega
    simp [combine_images, hn]

/-- C2 witness: one image fails with the validation error for any provider
stub, two images delegate. -/
theorem combine_images_validates_witness :
    combine_images okProvider [([0x89], none)] "merge" =
      Except.error (Exc.valueError "At least 2 images are required for combine operation") ∧
    combine_images okProvider [([0x89], none)] "merge" =
      combine_images boomProvider [([0x89], none)] "merge" ∧
    combine_images okProvider [([1], none), ([2], none)] "merge" =
      okProvider [([1], none), ([2], none)] "merge" :=
  ⟨((combine_images_validates okProvider boomProvider [([0x89], none)] "merge").1
      (by decide)).1,
   ((combine_images_validates okProvider boomProvider [([0x89], none)] "merge").1
      (by decide)).2,
   (combine_images_validates okProvider boomProvider [([1], none), ([2], none)] "merge").2.1
      (by decide)⟩

/-- C3 counterexample: the orchestrator passes the image list to the
provider verbatim — a two-image call with both MIME slots absent reaches
the provider still carrying the holes, refuting that the fill happens in
the orchestrator before delegation. -/
theorem combine_images_passes_mime_holes_through :
    combine_images probeProvider [([0x89], none), ([0xFF], none)] "merge" =
      Except.error (Exc.providerError "provider received an image with no MIME type") := by
  simp [combine_images, probeProvider]

/-- The code's per-image MIME fill agrees with the spec's wording of the
rule. -/
theorem geminiMime_eq_specMime (img : ImageArg) :
    geminiMime img.1 img.2 = specMime img := by
  cases h : img.2 with
  | some m => simp [geminiMime, specMime, h]
  | none =>
    cases hd : detect_format img.1 with
    | some f => simp [geminiMime, specMime, h, hd]
    | none => simp [geminiMime, specMime, h, hd]

/-- C3 amended: the MIME fill does happen — per image, by format detection
with the PNG MIME as fallback — but inside the provider's `combine`, when
it builds the request parts; the orchestrator itself hands the image list
to the provider unchanged. So no *request part* ever lacks a MIME type,
while the provider is handed the unfilled tuples. -/
theorem gemini_combine_fills_mime (images : List ImageArg) (prompt : String) :
    geminiCombineParts images prompt =
      images.map (fun img => ReqPart.bytesPart img.1 (specMime img)) ++
        [ReqPart.textPart prompt] ∧
    (∀ p : CombineFn, 2 ≤ images.length →
      combine_images p images prompt = p images prompt) := by
  constructor
  · simp [geminiCombineParts, geminiMime_eq_specMime]
  · intro p h
    have hn : ¬ images.length < 2 := by omega
    simp [combine_images, hn]

/-- C3 amended witness: a PNG-signature image with no hint gets
`image/png` by detection, a hinted image keeps its hint, and a two-image
call delegates verbatim. -/
theorem gemini_combine_fills_mime_witness :
    geminiCombineParts
        [([0x89, 0x50, 0x4E, 0x47, 0x0D, 0x0A, 0x1A, 0x0A], none), ([0x00], some "image/gif")]
        "blend" =
      [ReqPart.bytesPart [0x89, 0x50, 0x4E, 0x47, 0x0D, 0x0A, 0x1A, 0x0A] "image/png",
       ReqPart.bytesPart [0x00] "image/gif",
       ReqPart.textPart "blend"] ∧
    combine_images okProvider [([0x89], none), ([0x00], none)] "blend" =
      okProvider [([0x89], none), ([0x00], none)] "blend" := by
  constructor
  · rw [(gemini_combine_fills_mime
        [([0x89, 0x50, 0x4E, 0x47, 0x0D, 0x0A, 0x1A, 0x0A], none), ([0x00], some "image/gif")]
        "blend").1]
    decide
  · exact (gemini_combine_fills_mime [([0x89], none), ([0x00], none)] "blend").2
      okProvider (by decide)

/-- Every error the response-parsing loop raises is a `ProviderError`. -/
theorem extractImage_error_class (model : String) (parts : List RespPart) (e : Exc)
    (h : extractImage model parts = Except.error e) :
    e.cls = ExcClass.providerErrorClass := by
  induction parts with
  | nil =>
    simp [extractImage] at h
    simp [← h, Exc.cls]
  | cons p rest ih =>
    cases p with
    | inlineData d m => simp [extractImage] at h
    | text t =>
      cases hrec : extractImage model rest with
      | ok r => simp [extractImage, hrec] at h
      | error e' =>
        simp only [extractImage, hrec] at h
        split_ifs at h <;> simp only [Except.error.injEq] at h <;> simp [← h, Exc.cls]
    | empty =>
      cases hrec : extractImage model rest with
      | ok r => simp [extractImage, hrec] at h
      | error e' =>
        simp only [extractImage, hrec] at h
        split_ifs at h <;> simp only [Except.error.injEq] at h <;> simp [← h, Exc.cls]

/-- Any error escaping the `try`/`except` shared by the three operations is
a `ProviderError`. -/
theorem geminiTry_error_class (model : String) (tr : Transport) (e : Exc)
    (h : geminiTry (tr.bind (extractImage model)) = Except.error e) :
    e.cls = ExcClass.providerErrorClass := by
  cases tr with
  | error e' =>
    simp only [geminiTry, Except.bind] at h
    cases e' <;> simp only [geminiWrapExc, Except.error.injEq] at h <;> simp [← h, Exc.cls]
  | ok parts =>
    simp only [Except.bind] at h
    cases hx : extractImage model parts with
    | ok r => simp [geminiTry, hx] at h
    | error e' =>
      have hc := extractImage_error_class model parts e' hx
      cases e' <;> simp [Exc.cls] at hc
      simp only [geminiTry, hx, geminiWrapExc, Except.error.injEq] at h
      simp [← h, Exc.cls]

/-- C7: across `edit`, `generate` and `combine`, every raised exception
reaching the caller is a `ProviderError`; a transport exception that
already is a `ProviderError` propagates with its message unchanged (never
re-wrapped), and a transport exception of any other class surfaces
wrapped exactly once as `ProviderError("Gemini API error: " + message)`. -/
theorem gemini_exception_wrapping (model : String) (tp : List ReqPart → Transport)
    (image_data : List Nat) (mt : Option String) (images : List ImageArg)
    (prompt : String) :
    (∀ e, geminiEdit model tp image_data prompt mt = Except.error e →
      e.cls = ExcClass.providerErrorClass) ∧
    (∀ e, geminiGenerate model tp prompt = Except.error e →
      e.cls = ExcClass.providerErrorClass) ∧
    (∀ e, geminiCombine model tp images prompt = Except.error e →
      e.cls = ExcClass.providerErrorClass) ∧
    (∀ m, tp (geminiCombineParts images prompt) = Except.error (Exc.providerError m) →
      geminiCombine model tp images prompt = Except.error (Exc.providerError m)) ∧
    (∀ m, tp (geminiCombineParts images prompt) = Except.error (Exc.otherExc m) →
      geminiCombine model tp images prompt =
        Except.error (Exc.providerError ("Gemini API error: " ++ m))) ∧
    (∀ m, tp [ReqPart.bytesPart image_data (geminiMime image_data mt),
              ReqPart.textPart prompt] = Except.error (Exc.providerError m) →
      geminiEdit model tp image_data prompt mt = Except.error (Exc.providerError m)) ∧
    (∀ m, tp [ReqPart.bytesPart image_data (geminiMime image_data mt),
              ReqPart.textPart prompt] = Except.error (Exc.otherExc m) →
      geminiEdit model tp image_data prompt mt =
        Except.error (Exc.providerError ("Gemini API error: " ++ m))) ∧
    (∀ m, tp [ReqPart.textPart prompt] = Except.error (Exc.providerError m) →
      geminiGenerate model tp prompt = Except.error (Exc.providerError m)) ∧
    (∀ m, tp [ReqPart.textPart prompt] = Except.error (Exc.otherExc m) →
      geminiGenerate model tp prompt =
        Except.error (Exc.providerError ("Gemini API error: " ++ m))) := by
  refine ⟨fun e h => geminiTry_error_class model _ e h,
          fun e h => geminiTry_error_class model _ e h,
          fun e h => geminiTry_error_class model _ e h,
          fun m h => ?_, fun m h => ?_, fun m h => ?_,
          fun m h => ?_, fun m h => ?_, fun m h => ?_⟩ <;>
    first
      | (unfold geminiCombine; rw [h]; rfl)
      | (unfold geminiEdit; rw [h]; rfl)
      | (unfold geminiGenerate; rw [h]; rfl)

/-- C7 witness: a transport failure of a non-domain class surfaces wrapped
exactly once; a domain `ProviderError` from the transport passes through
unchanged. -/
theorem gemini_exception_wrapping_witness :
    geminiCombine "m" (fun _ => Except.error (Exc.otherExc "connection reset"))
        [([0x00], none)] "p" =
      Except.error (Exc.providerError "Gemini API error: connection reset") ∧
    geminiGenerate "m" (fun _ => Except.error (Exc.providerError "quota exceeded")) "p" =
      Except.error (Exc.providerError "quota exceeded") :=
  ⟨(gemini_exception_wrapping "m" (fun _ => Except.error (Exc.otherExc "connection reset"))
      [] none [([0x00], none)] "p").2.2.2.2.1 "connection reset" rfl,
   (gemini_exception_wrapping "m" (fun _ => Except.error (Exc.providerError "quota exceeded"))
      [] none [] "p").2.2.2.2.2.2.2.1 "quota exceeded" rfl⟩

/-- C8 counterexample: the missing-credentials failure is raised as the
plain `ProviderError` class — exactly the class every generic provider
failure carries — so no distinct `ConfigurationError` kind exists for a
caller to detect. -/
theorem missing_key_error_is_plain_provider_error :
    geminiGetClient none =
      Except.error (Exc.providerError "Gemini API key not configured. Run 'image-edit config set api-key YOUR_KEY' or set GEMINI_API_KEY.") ∧
    (Exc.providerError "Gemini API key not configured. Run 'image-edit config set api-key YOUR_KEY' or set GEMINI_API_KEY.").cls =
      (Exc.providerError "Gemini response contained no image data").cls :=
  ⟨rfl, rfl⟩

/-- C8 amended: when the API key is absent or empty, `_get_client` raises a
`ProviderError` whose message tells the caller to configure credentials;
the failure is distinguishable only by that message, not by a separate
error class; with a non-empty key the client is created. -/
theorem gemini_get_client_spec (apiKey : Option String) :
    (apiKey = none ∨ apiKey = some "" →
      geminiGetClient apiKey =
        Except.error (Exc.providerError "Gemini API key not configured. Run 'image-edit config set api-key YOUR_KEY' or set GEMINI_API_KEY.")) ∧
    (∀ k, apiKey = some k → k ≠ "" → geminiGetClient apiKey = Except.ok ()) := by
  constructor
  · rintro (h | h) <;> subst h <;> simp [geminiGetClient]
  · intro k hk hne
    subst hk
    simp [geminiGetClient, hne]

/-- C8 amended witness: the missing-key and configured-key cases at concrete
inputs. -/
theorem gemini_get_client_spec_witness :
    geminiGetClient none =
      Except.error (Exc.providerError "Gemini API key not configured. Run 'image-edit config set api-key YOUR_KEY' or set GEMINI_API_KEY.") ∧
    geminiGetClient (some "sk-test") = Except.ok () :=
  ⟨(gemini_get_client_spec none).1 (Or.inl rfl),
   (gemini_get_client_spec (some "sk-test")).2 "sk-test" rfl (by decide)⟩
